import Mathlib

/-!
Verification of the Game-of-Life simulator (src/main.rs).

The Rust source is shallowly embedded: `Vec<bool>` becomes `List Bool`,
`usize` becomes `Nat`, `i32` becomes `Int`, and fallible operations
(indexing a `Vec`, which panics out of range) return `Option`.  The `f32`
screen coordinates of the mouse mapping are modelled by `ℚ` with `Int.floor`,
and the saturating `as usize` cast by `Int.toNat`.
-/

/-- Embeds `struct BoolGrid2D { array: Vec<bool>, width: usize, height: usize }`. -/
structure BoolGrid2D where
  array : List Bool
  width : Nat
  height : Nat
deriving DecidableEq

/-- Embeds `BoolGrid2D::new`: all cells false. -/
def BoolGrid2D.new (width height : Nat) : BoolGrid2D :=
  { array := List.replicate (width * height) false, width := width, height := height }

/-- Embeds `BoolGrid2D::get_index`: flat index `x + y * self.width`. -/
def BoolGrid2D.get_index (g : BoolGrid2D) (x y : Nat) : Nat :=
  x + y * g.width

/-- Embeds `BoolGrid2D::get`: `self.array[index]`, which panics (here: `none`)
iff the flat index is out of range of the backing vector. -/
def BoolGrid2D.get (g : BoolGrid2D) (x y : Nat) : Option Bool :=
  g.array[g.get_index x y]?

/-- Embeds `BoolGrid2D::set`: `self.array[index] = val`, which panics (here:
`none`) iff the flat index is out of range of the backing vector. -/
def BoolGrid2D.set (g : BoolGrid2D) (x y : Nat) (val : Bool) : Option BoolGrid2D :=
  if g.get_index x y < g.array.length then
    some { g with array := g.array.set (g.get_index x y) val }
  else none

/-- Dimension consistency of a grid: the backing vector has exactly
`width * height` entries (true of every grid the program constructs). -/
def BoolGrid2D.consistent (g : BoolGrid2D) : Prop :=
  g.array.length = g.width * g.height

instance (g : BoolGrid2D) : Decidable g.consistent := by
  unfold BoolGrid2D.consistent; infer_instance

/-- Embeds `struct Game` (the rendering-only `cell_color` field is dropped;
`cell_size : Vector2f` is modelled over `ℚ`). -/
structure Game where
  grid : BoolGrid2D
  simulation_grid : BoolGrid2D
  paused : Bool
  cell_size : ℚ × ℚ
deriving DecidableEq

/-- Embeds `Game::new`. -/
def Game.new (width height : Nat) : Game :=
  { grid := BoolGrid2D.new width height
    simulation_grid := BoolGrid2D.new width height
    paused := false
    cell_size := (10, 10) }

/-- Well-formedness of a game state: both grids are dimension-consistent and
share the same dimensions (true of every state the program constructs). -/
def Game.wf (game : Game) : Prop :=
  game.grid.consistent ∧ game.simulation_grid.consistent ∧
  game.simulation_grid.width = game.grid.width ∧
  game.simulation_grid.height = game.grid.height

instance (game : Game) : Decidable game.wf := by
  unfold Game.wf; infer_instance

/-- Embeds `Game::get_cell_below_position`: each screen coordinate is divided
by the per-cell size and floored (`f32::floor` then the saturating `as usize`,
modelled by `Int.toNat`). -/
def Game.get_cell_below_position (game : Game) (position : ℚ × ℚ) : Nat × Nat :=
  ((⌊position.1 / game.cell_size.1⌋).toNat, (⌊position.2 / game.cell_size.2⌋).toNat)

/-- Embeds `Game::toggle_cell`: `self.grid.set(x, y, !self.grid.get(x, y))`. -/
def Game.toggle_cell (game : Game) (position : Nat × Nat) : Option Game :=
  (game.grid.get position.1 position.2).bind fun b =>
    (game.grid.set position.1 position.2 (!b)).map fun g =>
      { game with grid := g }

/-- One guarded neighbor read of `Game::get_neighbors_count`: the Rust
short-circuit `cond && self.grid.get(..)` reads the grid only when the
boundary guard `cond` holds, and then bumps the running count. -/
def neighborCheck (cond : Prop) [Decidable cond] (g : BoolGrid2D) (x y : Nat)
    (count : Int) : Option Int :=
  if cond then
    (g.get x y).map fun b => if b then count + 1 else count
  else some count

/-- Embeds `Game::get_neighbors_count`: the eight guarded reads, in source
order (top, bottom, right, left, top-left, top-right, bottom-right,
bottom-left), accumulated into an `i32` count. -/
def Game.get_neighbors_count (game : Game) (x y : Nat) : Option Int :=
  (neighborCheck (y ≠ 0) game.grid x (y - 1) 0).bind fun c1 =>
  (neighborCheck (y ≠ game.grid.height - 1) game.grid x (y + 1) c1).bind fun c2 =>
  (neighborCheck (x ≠ game.grid.width - 1) game.grid (x + 1) y c2).bind fun c3 =>
  (neighborCheck (x ≠ 0) game.grid (x - 1) y c3).bind fun c4 =>
  (neighborCheck (x ≠ 0 ∧ y ≠ 0) game.grid (x - 1) (y - 1) c4).bind fun c5 =>
  (neighborCheck (x ≠ game.grid.width - 1 ∧ y ≠ 0) game.grid (x + 1) (y - 1) c5).bind fun c6 =>
  (neighborCheck (x ≠ game.grid.width - 1 ∧ y ≠ game.grid.height - 1) game.grid (x + 1) (y + 1) c6).bind fun c7 =>
  neighborCheck (x ≠ 0 ∧ y ≠ game.grid.height - 1) game.grid (x - 1) (y + 1) c7

/-- Embeds `Game::apply_simulation_grid`:
`self.grid.array = self.simulation_grid.array.clone()`. -/
def Game.apply_simulation_grid (game : Game) : Game :=
  { game with grid := { game.grid with array := game.simulation_grid.array } }

/-- The `is_going_to_live` branch structure of `Game::update`, verbatim:
the variable starts `false` and each branch assigns it. -/
def lifeRule (is_alive : Bool) (neighbors_count : Int) : Bool :=
  if is_alive then
    if neighbors_count < 2 then false
    else if neighbors_count = 2 ∨ neighbors_count = 3 then true
    else if neighbors_count > 3 then false
    else false
  else
    if neighbors_count = 3 then true
    else false

/-- One iteration of the double loop in `Game::update`: read the cell, count
its neighbors (both from `self.grid`), write the verdict into
`self.simulation_grid`. -/
def Game.updateCell (game : Game) (x y : Nat) : Option Game :=
  (game.grid.get x y).bind fun is_alive =>
  (game.get_neighbors_count x y).bind fun neighbors_count =>
  (game.simulation_grid.set x y (lifeRule is_alive neighbors_count)).map fun sg =>
    { game with simulation_grid := sg }

/-- Embeds `Game::update`: early return when paused; otherwise the row-major
double loop over `self.grid`, then `apply_simulation_grid`. -/
def Game.update (game : Game) : Option Game :=
  if game.paused then some game
  else
    ((List.range game.grid.height).foldlM
      (fun (acc : Game) y => (List.range game.grid.width).foldlM
        (fun (acc2 : Game) x => acc2.updateCell x y) acc) game).map
      Game.apply_simulation_grid

/-- Iterated `Game::update` (the driver calls it once per tick). -/
def Game.updateN (game : Game) : Nat → Option Game
  | 0 => some game
  | n + 1 => game.update.bind fun g => g.updateN n

/-- Embeds the SFML events `Game::process_event` reacts to: a mouse press at
a (view-mapped) screen position, a key press (is it SPACE?), or anything
else. -/
inductive GEvent where
  | mouseButtonPressed (position : ℚ × ℚ)
  | keyPressed (isSpace : Bool)
  | other
deriving DecidableEq

/-- Embeds `Game::process_event`: a mouse press toggles the cell below the
position, SPACE flips `paused`, everything else is ignored. -/
def Game.process_event (game : Game) (event : GEvent) : Option Game :=
  match event with
  | .mouseButtonPressed position =>
      game.toggle_cell (game.get_cell_below_position position)
  | .keyPressed isSpace =>
      if isSpace then some { game with paused := !game.paused } else some game
  | .other => some game

/-! ## Specification-side definitions (from the spec's words, to be compared
with the embedded code) -/

/-- The value of cell `(x, y)` of a grid, reading the flat array at
`x + y * width` (default `false`); the semantic contents of a grid. -/
def cellAlive (g : BoolGrid2D) (x y : Nat) : Bool :=
  (g.array[x + y * g.width]?).getD false

/-- Whether the integer coordinate `(u, v)` is an in-bounds, alive cell:
positions outside the grid are never alive (spec: cells outside the grid
boundary are never counted, no wraparound). -/
def aliveZ (g : BoolGrid2D) (u v : Int) : Bool :=
  if 0 ≤ u ∧ u < (g.width : Int) ∧ 0 ≤ v ∧ v < (g.height : Int) then
    cellAlive g u.toNat v.toNat
  else false

/-- Indicator of a boolean. -/
def boolNat (b : Bool) : Nat :=
  if b then 1 else 0

/-- Modelled from the spec: the number of alive cells among the up-to-8
grid-adjacent neighbors of `(u, v)`, counting in-bounds cells only. -/
def specNeighborCount (g : BoolGrid2D) (u v : Int) : Nat :=
  boolNat (aliveZ g (u - 1) (v - 1)) + boolNat (aliveZ g u (v - 1)) +
  boolNat (aliveZ g (u + 1) (v - 1)) + boolNat (aliveZ g (u - 1) v) +
  boolNat (aliveZ g (u + 1) v) + boolNat (aliveZ g (u - 1) (v + 1)) +
  boolNat (aliveZ g u (v + 1)) + boolNat (aliveZ g (u + 1) (v + 1))

/-- Modelled from the spec: a live cell with neighbor count < 2 or > 3 dies;
a live cell with count 2 or 3 survives; a dead cell with count exactly 3
becomes alive; all other dead cells stay dead. -/
def specClassicRule (alive : Bool) (n : Nat) : Bool :=
  if alive then
    if n < 2 ∨ n > 3 then false else true
  else
    if n = 3 then true else false

/-- Neighbor count of a pattern on the unbounded integer plane. -/
def zCount (p : Int → Int → Bool) (u v : Int) : Nat :=
  boolNat (p (u - 1) (v - 1)) + boolNat (p u (v - 1)) +
  boolNat (p (u + 1) (v - 1)) + boolNat (p (u - 1) v) +
  boolNat (p (u + 1) v) + boolNat (p (u - 1) (v + 1)) +
  boolNat (p u (v + 1)) + boolNat (p (u + 1) (v + 1))

/-- One Game-of-Life generation of a pattern on the unbounded integer
plane. -/
def zStep (p : Int → Int → Bool) (u v : Int) : Bool :=
  specClassicRule (p u v) (zCount p u v)

/-- The 2x2 block pattern (a classic still life), anchored at the origin. -/
def blockP : Int → Int → Bool := fun u v =>
  decide ((u, v) ∈ [((0 : Int), (0 : Int)), (1, 0), (0, 1), (1, 1)])

/-- The single-cell pattern, anchored at the origin. -/
def singleP : Int → Int → Bool := fun u v =>
  decide (u = 0 ∧ v = 0)

/-- Generation 0 of the glider. -/
def gliderP0 : Int → Int → Bool := fun u v =>
  decide ((u, v) ∈ [((1 : Int), (0 : Int)), (2, 1), (0, 2), (1, 2), (2, 2)])

/-- Generation 1 of the glider. -/
def gliderP1 : Int → Int → Bool := fun u v =>
  decide ((u, v) ∈ [((0 : Int), (1 : Int)), (2, 1), (1, 2), (2, 2), (1, 3)])

/-- Generation 2 of the glider. -/
def gliderP2 : Int → Int → Bool := fun u v =>
  decide ((u, v) ∈ [((2 : Int), (1 : Int)), (0, 2), (2, 2), (1, 3), (2, 3)])

/-- Generation 3 of the glider. -/
def gliderP3 : Int → Int → Bool := fun u v =>
  decide ((u, v) ∈ [((1 : Int), (1 : Int)), (2, 2), (3, 2), (1, 3), (2, 3)])

/-- Generation 4 of the glider: generation 0 translated by `(+1, +1)`. -/
def gliderP4 : Int → Int → Bool := fun u v =>
  gliderP0 (u - 1) (v - 1)

/-- A 3x3 game holding the vertical blinker (alive at (1,0), (1,1), (1,2)),
as the program would build it by toggling those cells after `Game::new`. -/
def blinkerGame : Game :=
  { grid := ⟨[false, true, false, false, true, false, false, true, false], 3, 3⟩
    simulation_grid := BoolGrid2D.new 3 3
    paused := false
    cell_size := (10, 10) }

/-- The expected state one step after `blinkerGame`: horizontal blinker. -/
def blinkerGame1 : Game :=
  { grid := ⟨[false, false, false, true, true, true, false, false, false], 3, 3⟩
    simulation_grid := ⟨[false, false, false, true, true, true, false, false, false], 3, 3⟩
    paused := false
    cell_size := (10, 10) }

/-- The expected state two steps after `blinkerGame`: vertical again. -/
def blinkerGame2 : Game :=
  { grid := ⟨[false, true, false, false, true, false, false, true, false], 3, 3⟩
    simulation_grid := ⟨[false, true, false, false, true, false, false, true, false], 3, 3⟩
    paused := false
    cell_size := (10, 10) }

/-- `blinkerGame` with the pause flag raised. -/
def pausedGame : Game :=
  { blinkerGame with paused := true }

/-- A 4x4 game holding a 2x2 block at offset (1, 1). -/
def blockGame : Game :=
  { grid := ⟨[false, false, false, false,
              false, true, true, false,
              false, true, true, false,
              false, false, false, false], 4, 4⟩
    simulation_grid := BoolGrid2D.new 4 4
    paused := false
    cell_size := (10, 10) }

/-- A 6x6 game holding the glider (generation 0) at offset (1, 1). -/
def gliderGame : Game :=
  { grid := ⟨[false, false, false, false, false, false,
              false, false, true, false, false, false,
              false, false, false, true, false, false,
              false, true, true, true, false, false,
              false, false, false, false, false, false,
              false, false, false, false, false, false], 6, 6⟩
    simulation_grid := BoolGrid2D.new 6 6
    paused := false
    cell_size := (10, 10) }

/-- A 2x2 game whose only alive cell is the corner (0, 0). -/
def cornerGame : Game :=
  { grid := ⟨[true, false, false, false], 2, 2⟩
    simulation_grid := BoolGrid2D.new 2 2
    paused := false
    cell_size := (10, 10) }

/-- A 3x3 grid whose only alive cell is (0, 1) (flat index 3). -/
def aliasGrid : BoolGrid2D :=
  ⟨[false, false, false, true, false, false, false, false, false], 3, 3⟩

/-- `aliasGrid` with flat index 3 cleared: the all-dead 3x3 grid. -/
def aliasGridCleared : BoolGrid2D :=
  ⟨[false, false, false, false, false, false, false, false, false], 3, 3⟩

/-- The 40x40 reference game (`Game::new(40, 40)`, 10x10-pixel cells). -/
def mouseGame : Game :=
  Game.new 40 40

/-- `mouseGame` after its grid cell at flat index 40 — the storage of cell
(0, 1) — has been toggled on. -/
def mouseGameToggled : Game :=
  { mouseGame with grid :=
      { mouseGame.grid with array := (List.replicate 1600 false).set 40 true } }

/-! ## Grid-level lemmas -/

/-- In-bounds coordinates give a flat index inside a consistent array. -/
theorem index_lt {x y w h : Nat} (hx : x < w) (hy : y < h) :
    x + y * w < w * h := by
  have h1 : y * w + w ≤ h * w := by
    have := Nat.mul_le_mul_right w (show y + 1 ≤ h by omega)
    simpa [Nat.add_mul] using this
  have h2 : w * h = h * w := Nat.mul_comm w h
  omega

/-- Flat indexing is injective on in-bounds coordinates. -/
theorem index_inj {x y x' y' w : Nat} (hx : x < w) (hx' : x' < w)
    (h : x + y * w = x' + y' * w) : x = x' ∧ y = y' := by
  have m1 : (x + y * w) % w = x := by
    rw [Nat.add_mul_mod_self_right, Nat.mod_eq_of_lt hx]
  have m2 : (x' + y' * w) % w = x' := by
    rw [Nat.add_mul_mod_self_right, Nat.mod_eq_of_lt hx']
  have hxx : x = x' := by rw [← m1, ← m2, h]
  refine ⟨hxx, ?_⟩
  have hw : 0 < w := by omega
  have : y * w = y' * w := by omega
  exact Nat.eq_of_mul_eq_mul_right hw this

/-- On a consistent grid, an in-bounds `get` returns the cell value. -/
theorem BoolGrid2D.get_eq_cellAlive {g : BoolGrid2D} (hc : g.consistent)
    {x y : Nat} (hx : x < g.width) (hy : y < g.height) :
    g.get x y = some (cellAlive g x y) := by
  have hlt : x + y * g.width < g.array.length := by
    rw [hc]; exact index_lt hx hy
  unfold BoolGrid2D.get BoolGrid2D.get_index cellAlive
  rw [List.getElem?_eq_getElem hlt]
  rfl

/-- On a consistent grid, an in-bounds `set` succeeds, keeps the dimensions,
writes exactly the addressed cell and leaves every other in-bounds cell
unchanged. -/
theorem BoolGrid2D.set_spec {g : BoolGrid2D} (hc : g.consistent)
    {x y : Nat} (v : Bool) (hx : x < g.width) (hy : y < g.height) :
    ∃ g', g.set x y v = some g' ∧ g'.width = g.width ∧ g'.height = g.height ∧
      g'.array.length = g.array.length ∧ cellAlive g' x y = v ∧
      ∀ x' y', x' < g.width → y' < g.height → ¬(x' = x ∧ y' = y) →
        cellAlive g' x' y' = cellAlive g x' y' := by
  have hlt : x + y * g.width < g.array.length := by
    rw [hc]; exact index_lt hx hy
  refine ⟨{ g with array := g.array.set (x + y * g.width) v }, ?_, rfl, rfl, ?_, ?_, ?_⟩
  · unfold BoolGrid2D.set BoolGrid2D.get_index
    rw [if_pos hlt]
  · exact List.length_set g.array _ v
  · unfold cellAlive
    simp [List.getElem?_set, hlt]
  · intro x' y' hx' hy' hne
    unfold cellAlive
    have hij : x + y * g.width ≠ x' + y' * g.width := by
      intro he
      exact hne (index_inj hx' hx he.symm)
    simp only [List.getElem?_set_ne hij]

/-! ## Neighbor counting agrees with the spec-side count -/

/-- An in-bounds integer coordinate reads the underlying cell. -/
theorem aliveZ_eq_cellAlive {g : BoolGrid2D} {u v : Int} {x y : Nat}
    (hu : u = (x : Int)) (hv : v = (y : Int)) (hx : x < g.width) (hy : y < g.height) :
    aliveZ g u v = cellAlive g x y := by
  subst hu
  subst hv
  unfold aliveZ
  rw [if_pos (by omega), Int.toNat_natCast, Int.toNat_natCast]

/-- An out-of-bounds integer coordinate is never alive. -/
theorem aliveZ_eq_false {g : BoolGrid2D} {u v : Int}
    (h : u < 0 ∨ (g.width : Int) ≤ u ∨ v < 0 ∨ (g.height : Int) ≤ v) :
    aliveZ g u v = false := by
  unfold aliveZ
  rw [if_neg (by omega)]

/-- Resolving one guarded neighbor read. -/
theorem neighborCheck_eq {c : Prop} [Decidable c] {g : BoolGrid2D} {x y : Nat}
    (count : Int) (h : c → g.get x y = some (cellAlive g x y)) :
    neighborCheck c g x y count =
      some (count + if c ∧ cellAlive g x y = true then 1 else 0) := by
  unfold neighborCheck
  by_cases hc : c
  · rw [if_pos hc, h hc, Option.map_some']
    cases hb : cellAlive g x y <;> simp [hb, hc]
  · rw [if_neg hc]
    simp [hc]

/-- A resolved guarded read contributes the spec-side indicator of the
corresponding integer neighbor coordinate. -/
theorem term_eq {g : BoolGrid2D} (c : Prop) [Decidable c] {a b : Nat} {u v : Int}
    (hc : c → aliveZ g u v = cellAlive g a b)
    (hnc : ¬c → aliveZ g u v = false) :
    (if c ∧ cellAlive g a b = true then (1 : Int) else 0) =
      (boolNat (aliveZ g u v) : Int) := by
  by_cases h : c
  · rw [hc h]
    cases hb : cellAlive g a b <;> simp [h, hb, boolNat]
  · rw [hnc h]
    simp [h, boolNat]

/-- The embedded `get_neighbors_count`, at an in-bounds cell of a consistent
grid, succeeds and returns exactly the spec-side count of in-bounds alive
neighbors (computed from `self.grid`, the pre-step buffer). -/
theorem Game.get_neighbors_count_spec (game : Game) (hc : game.grid.consistent)
    {x y : Nat} (hx : x < game.grid.width) (hy : y < game.grid.height) :
    game.get_neighbors_count x y =
      some ((specNeighborCount game.grid (x : Int) (y : Int) : Nat) : Int) := by
  have h1 : (y ≠ 0) → game.grid.get x (y - 1) = some (cellAlive game.grid x (y - 1)) :=
    fun _ => BoolGrid2D.get_eq_cellAlive hc hx (by omega)
  have h2 : (y ≠ game.grid.height - 1) →
      game.grid.get x (y + 1) = some (cellAlive game.grid x (y + 1)) :=
    fun hg => BoolGrid2D.get_eq_cellAlive hc hx (by omega)
  have h3 : (x ≠ game.grid.width - 1) →
      game.grid.get (x + 1) y = some (cellAlive game.grid (x + 1) y) :=
    fun hg => BoolGrid2D.get_eq_cellAlive hc (by omega) hy
  have h4 : (x ≠ 0) → game.grid.get (x - 1) y = some (cellAlive game.grid (x - 1) y) :=
    fun _ => BoolGrid2D.get_eq_cellAlive hc (by omega) hy
  have h5 : (x ≠ 0 ∧ y ≠ 0) →
      game.grid.get (x - 1) (y - 1) = some (cellAlive game.grid (x - 1) (y - 1)) :=
    fun hg => BoolGrid2D.get_eq_cellAlive hc (by omega) (by omega)
  have h6 : (x ≠ game.grid.width - 1 ∧ y ≠ 0) →
      game.grid.get (x + 1) (y - 1) = some (cellAlive game.grid (x + 1) (y - 1)) :=
    fun hg => BoolGrid2D.get_eq_cellAlive hc (by omega) (by omega)
  have h7 : (x ≠ game.grid.width - 1 ∧ y ≠ game.grid.height - 1) →
      game.grid.get (x + 1) (y + 1) = some (cellAlive game.grid (x + 1) (y + 1)) :=
    fun hg => BoolGrid2D.get_eq_cellAlive hc (by omega) (by omega)
  have h8 : (x ≠ 0 ∧ y ≠ game.grid.height - 1) →
      game.grid.get (x - 1) (y + 1) = some (cellAlive game.grid (x - 1) (y + 1)) :=
    fun hg => BoolGrid2D.get_eq_cellAlive hc (by omega) (by omega)
  have E1 := term_eq (g := game.grid) (y ≠ 0) (a := x) (b := y - 1)
    (u := (x : Int)) (v := (y : Int) - 1)
    (fun hg => aliveZ_eq_cellAlive rfl (by omega) hx (by omega))
    (fun hg => aliveZ_eq_false (by omega))
  have E2 := term_eq (g := game.grid) (y ≠ game.grid.height - 1) (a := x) (b := y + 1)
    (u := (x : Int)) (v := (y : Int) + 1)
    (fun hg => aliveZ_eq_cellAlive rfl (by omega) hx (by omega))
    (fun hg => aliveZ_eq_false (by omega))
  have E3 := term_eq (g := game.grid) (x ≠ game.grid.width - 1) (a := x + 1) (b := y)
    (u := (x : Int) + 1) (v := (y : Int))
    (fun hg => aliveZ_eq_cellAlive (by omega) rfl (by omega) hy)
    (fun hg => aliveZ_eq_false (by omega))
  have E4 := term_eq (g := game.grid) (x ≠ 0) (a := x - 1) (b := y)
    (u := (x : Int) - 1) (v := (y : Int))
    (fun hg => aliveZ_eq_cellAlive (by omega) rfl (by omega) hy)
    (fun hg => aliveZ_eq_false (by omega))
  have E5 := term_eq (g := game.grid) (x ≠ 0 ∧ y ≠ 0) (a := x - 1) (b := y - 1)
    (u := (x : Int) - 1) (v := (y : Int) - 1)
    (fun hg => aliveZ_eq_cellAlive (by omega) (by omega) (by omega) (by omega))
    (fun hg => aliveZ_eq_false (by omega))
  have E6 := term_eq (g := game.grid) (x ≠ game.grid.width - 1 ∧ y ≠ 0)
    (a := x + 1) (b := y - 1) (u := (x : Int) + 1) (v := (y : Int) - 1)
    (fun hg => aliveZ_eq_cellAlive (by omega) (by omega) (by omega) (by omega))
    (fun hg => aliveZ_eq_false (by omega))
  have E7 := term_eq (g := game.grid) (x ≠ game.grid.width - 1 ∧ y ≠ game.grid.height - 1)
    (a := x + 1) (b := y + 1) (u := (x : Int) + 1) (v := (y : Int) + 1)
    (fun hg => aliveZ_eq_cellAlive (by omega) (by omega) (by omega) (by omega))
    (fun hg => aliveZ_eq_false (by omega))
  have E8 := term_eq (g := game.grid) (x ≠ 0 ∧ y ≠ game.grid.height - 1)
    (a := x - 1) (b := y + 1) (u := (x : Int) - 1) (v := (y : Int) + 1)
    (fun hg => aliveZ_eq_cellAlive (by omega) (by omega) (by omega) (by omega))
    (fun hg => aliveZ_eq_false (by omega))
  unfold Game.get_neighbors_count
  rw [neighborCheck_eq _ h1]
  simp only [Option.some_bind]
  rw [neighborCheck_eq _ h2]
  simp only [Option.some_bind]
  rw [neighborCheck_eq _ h3]
  simp only [Option.some_bind]
  rw [neighborCheck_eq _ h4]
  simp only [Option.some_bind]
  rw [neighborCheck_eq _ h5]
  simp only [Option.some_bind]
  rw [neighborCheck_eq _ h6]
  simp only [Option.some_bind]
  rw [neighborCheck_eq _ h7]
  simp only [Option.some_bind]
  rw [neighborCheck_eq _ h8]
  rw [E1, E2, E3, E4, E5, E6, E7, E8]
  congr 1
  unfold specNeighborCount
  push_cast
  ring

/-- The verbatim branch structure of the update rule collapses to the
spec's three-way classic rule. -/
theorem lifeRule_eq_specClassicRule (b : Bool) (n : Nat) :
    lifeRule b (n : Int) = specClassicRule b n := by
  cases b <;> unfold lifeRule specClassicRule <;> split_ifs <;> first | rfl | omega

/-! ## Characterising the double-buffered update loop -/

/-- One loop iteration succeeds on an in-bounds cell of a well-formed state;
it writes the rule's verdict for that cell into the scratch grid and touches
nothing else. -/
theorem Game.updateCell_spec (G : Game) {x y : Nat} (hwf : G.wf)
    (hx : x < G.grid.width) (hy : y < G.grid.height) :
    ∃ G', G.updateCell x y = some G' ∧
      G'.grid = G.grid ∧ G'.paused = G.paused ∧ G'.cell_size = G.cell_size ∧
      G'.simulation_grid.width = G.simulation_grid.width ∧
      G'.simulation_grid.height = G.simulation_grid.height ∧
      G'.simulation_grid.array.length = G.simulation_grid.array.length ∧
      ∀ x' y', x' < G.grid.width → y' < G.grid.height →
        cellAlive G'.simulation_grid x' y' =
          if x' = x ∧ y' = y then
            specClassicRule (cellAlive G.grid x y)
              (specNeighborCount G.grid (x : Int) (y : Int))
          else cellAlive G.simulation_grid x' y' := by
  obtain ⟨hgc, hsc, hsw, hsh⟩ := hwf
  have hxs : x < G.simulation_grid.width := by rw [hsw]; exact hx
  have hys : y < G.simulation_grid.height := by rw [hsh]; exact hy
  obtain ⟨sg, hset, hw', hh', hlen', hcell', hother'⟩ :=
    BoolGrid2D.set_spec hsc
      (lifeRule (cellAlive G.grid x y)
        ((specNeighborCount G.grid (x : Int) (y : Int) : Nat) : Int)) hxs hys
  refine ⟨{ G with simulation_grid := sg }, ?_, rfl, rfl, rfl, hw', hh', hlen', ?_⟩
  · unfold Game.updateCell
    rw [BoolGrid2D.get_eq_cellAlive hgc hx hy, Option.some_bind,
        Game.get_neighbors_count_spec G hgc hx hy, Option.some_bind, hset,
        Option.map_some']
  · intro x' y' hx' hy'
    by_cases hxy : x' = x ∧ y' = y
    · obtain ⟨hx1, hy1⟩ := hxy
      subst hx1
      subst hy1
      rw [if_pos ⟨rfl, rfl⟩]
      show cellAlive sg x' y' = _
      rw [hcell', lifeRule_eq_specClassicRule]
    · rw [if_neg hxy]
      exact hother' x' y' (by rw [hsw]; exact hx') (by rw [hsh]; exact hy') hxy

/-- Processing the first `n` cells of row `y` of the inner loop. -/
theorem foldRow_spec (G : Game) (hwf : G.wf) (y : Nat) (hy : y < G.grid.height) :
    ∀ n, n ≤ G.grid.width →
    ∃ G', (List.range n).foldlM (fun (acc : Game) x => acc.updateCell x y) G = some G' ∧
      G'.grid = G.grid ∧ G'.paused = G.paused ∧ G'.cell_size = G.cell_size ∧
      G'.simulation_grid.width = G.simulation_grid.width ∧
      G'.simulation_grid.height = G.simulation_grid.height ∧
      G'.simulation_grid.array.length = G.simulation_grid.array.length ∧
      ∀ x' y', x' < G.grid.width → y' < G.grid.height →
        cellAlive G'.simulation_grid x' y' =
          if x' < n ∧ y' = y then
            specClassicRule (cellAlive G.grid x' y')
              (specNeighborCount G.grid (x' : Int) (y' : Int))
          else cellAlive G.simulation_grid x' y' := by
  intro n
  induction n with
  | zero =>
    intro _
    refine ⟨G, by simp [List.range_zero], rfl, rfl, rfl, rfl, rfl, rfl, ?_⟩
    intro x' y' _ _
    rw [if_neg (by omega)]
  | succ n ih =>
    intro hn
    obtain ⟨Gn, hfold, hgrid, hpaused, hcs, hsw, hsh, hslen, hcells⟩ := ih (by omega)
    have hwfn : Gn.wf := by
      obtain ⟨h1, h2, h3, h4⟩ := hwf
      refine ⟨?_, ?_, ?_, ?_⟩
      · rw [hgrid]; exact h1
      · unfold BoolGrid2D.consistent at h2 ⊢
        rw [hslen, hsw, hsh]; exact h2
      · rw [hsw, hgrid]; exact h3
      · rw [hsh, hgrid]; exact h4
    have hxn : n < Gn.grid.width := by rw [hgrid]; omega
    have hyn : y < Gn.grid.height := by rw [hgrid]; exact hy
    obtain ⟨G', hcell_eq, hgrid', hpaused', hcs', hsw', hsh', hslen', hcells'⟩ :=
      Game.updateCell_spec Gn hwfn hxn hyn
    refine ⟨G', ?_, by rw [hgrid', hgrid], by rw [hpaused', hpaused],
      by rw [hcs', hcs], by rw [hsw', hsw], by rw [hsh', hsh],
      by rw [hslen', hslen], ?_⟩
    · rw [List.range_succ, List.foldlM_append, hfold]
      simp [hcell_eq]
    · intro x' y' hx' hy'
      have hx'' : x' < Gn.grid.width := by rw [hgrid]; exact hx'
      have hy'' : y' < Gn.grid.height := by rw [hgrid]; exact hy'
      rw [hcells' x' y' hx'' hy'']
      by_cases hcase : x' = n ∧ y' = y
      · obtain ⟨e1, e2⟩ := hcase
        subst e1
        subst e2
        rw [if_pos ⟨rfl, rfl⟩, if_pos (by omega), hgrid]
      · rw [if_neg hcase, hcells x' y' hx' hy']
        have hiff : (x' < n ∧ y' = y) ↔ (x' < n + 1 ∧ y' = y) := by
          constructor
          · rintro ⟨ha, hb⟩
            exact ⟨by omega, hb⟩
          · rintro ⟨ha, hb⟩
            refine ⟨?_, hb⟩
            rcases Nat.lt_succ_iff_lt_or_eq.mp ha with hlt | heq
            · exact hlt
            · exact absurd ⟨heq, hb⟩ hcase
        rw [if_congr hiff rfl rfl]

/-- Processing the first `m` rows of the outer loop. -/
theorem foldAll_spec (G : Game) (hwf : G.wf) :
    ∀ m, m ≤ G.grid.height →
    ∃ G', (List.range m).foldlM
        (fun (acc : Game) y => (List.range G.grid.width).foldlM
          (fun (acc2 : Game) x => acc2.updateCell x y) acc) G = some G' ∧
      G'.grid = G.grid ∧ G'.paused = G.paused ∧ G'.cell_size = G.cell_size ∧
      G'.simulation_grid.width = G.simulation_grid.width ∧
      G'.simulation_grid.height = G.simulation_grid.height ∧
      G'.simulation_grid.array.length = G.simulation_grid.array.length ∧
      ∀ x' y', x' < G.grid.width → y' < G.grid.height →
        cellAlive G'.simulation_grid x' y' =
          if y' < m then
            specClassicRule (cellAlive G.grid x' y')
              (specNeighborCount G.grid (x' : Int) (y' : Int))
          else cellAlive G.simulation_grid x' y' := by
  intro m
  induction m with
  | zero =>
    intro _
    refine ⟨G, by simp [List.range_zero], rfl, rfl, rfl, rfl, rfl, rfl, ?_⟩
    intro x' y' _ _
    rw [if_neg (by omega)]
  | succ m ih =>
    intro hm
    obtain ⟨Gm, hfold, hgrid, hpaused, hcs, hsw, hsh, hslen, hcells⟩ := ih (by omega)
    have hwfm : Gm.wf := by
      obtain ⟨h1, h2, h3, h4⟩ := hwf
      refine ⟨?_, ?_, ?_, ?_⟩
      · rw [hgrid]; exact h1
      · unfold BoolGrid2D.consistent at h2 ⊢
        rw [hslen, hsw, hsh]; exact h2
      · rw [hsw, hgrid]; exact h3
      · rw [hsh, hgrid]; exact h4
    have hym : m < Gm.grid.height := by rw [hgrid]; omega
    obtain ⟨G', hrow, hgrid', hpaused', hcs', hsw', hsh', hslen', hcells'⟩ :=
      foldRow_spec Gm hwfm m hym G.grid.width (by rw [hgrid])
    refine ⟨G', ?_, by rw [hgrid', hgrid], by rw [hpaused', hpaused],
      by rw [hcs', hcs], by rw [hsw', hsw], by rw [hsh', hsh],
      by rw [hslen', hslen], ?_⟩
    · rw [List.range_succ, List.foldlM_append, hfold]
      simp [hrow]
    · intro x' y' hx' hy'
      have hx'' : x' < Gm.grid.width := by rw [hgrid]; exact hx'
      have hy'' : y' < Gm.grid.height := by rw [hgrid]; exact hy'
      rw [hcells' x' y' hx'' hy'']
      by_cases hcase : y' = m
      · subst hcase
        rw [if_pos ⟨hx', rfl⟩, if_pos (by omega), hgrid]
      · have hnot : ¬(x' < G.grid.width ∧ y' = m) := fun h => hcase h.2
        rw [if_neg hnot, hcells x' y' hx' hy']
        have hiff : (y' < m) ↔ (y' < m + 1) := by
          constructor
          · intro h
            omega
          · intro h
            rcases Nat.lt_succ_iff_lt_or_eq.mp h with hlt | heq
            · exact hlt
            · exact absurd heq hcase
        rw [if_congr hiff rfl rfl]

/-- The update step, on a well-formed unpaused state, succeeds and replaces
the current grid with the rule applied pointwise to the pre-step grid. -/
theorem Game.update_spec (G : Game) (hwf : G.wf) (hp : G.paused = false) :
    ∃ G', G.update = some G' ∧
      G'.grid.width = G.grid.width ∧ G'.grid.height = G.grid.height ∧
      G'.paused = false ∧ G'.cell_size = G.cell_size ∧ G'.wf ∧
      ∀ x y, x < G.grid.width → y < G.grid.height →
        cellAlive G'.grid x y =
          specClassicRule (cellAlive G.grid x y)
            (specNeighborCount G.grid (x : Int) (y : Int)) := by
  obtain ⟨Gs, hfold, hgrid, hpaused, hcs, hsw, hsh, hslen, hcells⟩ :=
    foldAll_spec G hwf G.grid.height le_rfl
  have hww : Gs.grid.width = Gs.simulation_grid.width := by
    rw [hsw, hwf.2.2.1]
    exact congrArg BoolGrid2D.width hgrid
  refine ⟨Gs.apply_simulation_grid, ?_, ?_, ?_, ?_, ?_, ?_, ?_⟩
  · unfold Game.update
    rw [if_neg (by simp [hp]), hfold, Option.map_some']
  · show Gs.grid.width = G.grid.width
    rw [hgrid]
  · show Gs.grid.height = G.grid.height
    rw [hgrid]
  · show Gs.paused = false
    rw [hpaused, hp]
  · show Gs.cell_size = G.cell_size
    rw [hcs]
  · obtain ⟨h1, h2, h3, h4⟩ := hwf
    refine ⟨?_, ?_, ?_, ?_⟩
    · show Gs.simulation_grid.array.length = Gs.grid.width * Gs.grid.height
      rw [hslen, hgrid]
      unfold BoolGrid2D.consistent at h2
      rw [h2, h3, h4]
    · show Gs.simulation_grid.consistent
      unfold BoolGrid2D.consistent at h2 ⊢
      rw [hslen, hsw, hsh]
      exact h2
    · show Gs.simulation_grid.width = Gs.grid.width
      rw [hww]
    · show Gs.simulation_grid.height = Gs.grid.height
      rw [hsh, h4]
      exact (congrArg BoolGrid2D.height hgrid).symm
  · intro x y hx hy
    have : cellAlive Gs.apply_simulation_grid.grid x y =
        cellAlive Gs.simulation_grid x y := by
      unfold cellAlive Game.apply_simulation_grid
      rw [hww]
    rw [this, hcells x y hx hy, if_pos hy]

/-! ## Patterns on the integer plane, transferred to the finite grid -/

/-- A grid whose contents are a pattern `p` placed at offset `(a, b)`, with
the pattern's support inside the grid, looks like `p` from every integer
coordinate: out-of-bounds coordinates are dead on both sides. -/
theorem aliveZ_eq_pattern (g : BoolGrid2D) (p : Int → Int → Bool) (a b : Nat)
    (lo1 hi1 lo2 hi2 : Int)
    (hs : ∀ u v, p u v = true → lo1 ≤ u ∧ u < hi1 ∧ lo2 ≤ v ∧ v < hi2)
    (hm1 : 0 ≤ (a : Int) + lo1) (hm2 : (a : Int) + hi1 ≤ (g.width : Int))
    (hm3 : 0 ≤ (b : Int) + lo2) (hm4 : (b : Int) + hi2 ≤ (g.height : Int))
    (hcell : ∀ x y, x < g.width → y < g.height →
      cellAlive g x y = p ((x : Int) - a) ((y : Int) - b)) :
    ∀ u v : Int, aliveZ g u v = p (u - a) (v - b) := by
  intro u v
  by_cases hin : 0 ≤ u ∧ u < (g.width : Int) ∧ 0 ≤ v ∧ v < (g.height : Int)
  · rw [aliveZ_eq_cellAlive (x := u.toNat) (y := v.toNat) (by omega) (by omega)
      (by omega) (by omega)]
    rw [hcell u.toNat v.toNat (by omega) (by omega)]
    have e1 : ((u.toNat : Int)) - a = u - a := by omega
    have e2 : ((v.toNat : Int)) - b = v - b := by omega
    rw [e1, e2]
  · rw [aliveZ_eq_false (by omega)]
    cases hpv : p (u - a) (v - b)
    · rfl
    · have := hs _ _ hpv
      omega

/-- Under the bridge of `aliveZ_eq_pattern`, the spec-side neighbor count of
the grid is the pattern's neighbor count. -/
theorem specNeighborCount_eq_zCount (g : BoolGrid2D) (p : Int → Int → Bool)
    (a b : Nat) (hbr : ∀ u v : Int, aliveZ g u v = p (u - a) (v - b)) (u v : Int) :
    specNeighborCount g u v = zCount p (u - a) (v - b) := by
  unfold specNeighborCount zCount
  simp only [hbr]
  have e1 : u - 1 - (a : Int) = u - a - 1 := by ring
  have e2 : u + 1 - (a : Int) = u - a + 1 := by ring
  have e3 : v - 1 - (b : Int) = v - b - 1 := by ring
  have e4 : v + 1 - (b : Int) = v - b + 1 := by ring
  rw [e1, e2, e3, e4]

/-- Stepping a well-formed unpaused grid that holds pattern `p` at offset
`(a, b)` (support inside the grid) yields the grid holding `zStep p` at the
same offset. -/
theorem Game.step_pattern (G : Game) (p : Int → Int → Bool) (a b : Nat)
    (lo1 hi1 lo2 hi2 : Int)
    (hwf : G.wf) (hp : G.paused = false)
    (hs : ∀ u v, p u v = true → lo1 ≤ u ∧ u < hi1 ∧ lo2 ≤ v ∧ v < hi2)
    (hm1 : 0 ≤ (a : Int) + lo1) (hm2 : (a : Int) + hi1 ≤ (G.grid.width : Int))
    (hm3 : 0 ≤ (b : Int) + lo2) (hm4 : (b : Int) + hi2 ≤ (G.grid.height : Int))
    (hcell : ∀ x y, x < G.grid.width → y < G.grid.height →
      cellAlive G.grid x y = p ((x : Int) - a) ((y : Int) - b)) :
    ∃ G', G.update = some G' ∧
      G'.grid.width = G.grid.width ∧ G'.grid.height = G.grid.height ∧
      G'.paused = false ∧ G'.cell_size = G.cell_size ∧ G'.wf ∧
      ∀ x y, x < G.grid.width → y < G.grid.height →
        cellAlive G'.grid x y = zStep p ((x : Int) - a) ((y : Int) - b) := by
  have hbr := aliveZ_eq_pattern G.grid p a b lo1 hi1 lo2 hi2 hs hm1 hm2 hm3 hm4 hcell
  obtain ⟨G', h1, h2, h3, h4, h5, h6, h7⟩ := Game.update_spec G hwf hp
  refine ⟨G', h1, h2, h3, h4, h5, h6, ?_⟩
  intro x y hx hy
  rw [h7 x y hx hy, hcell x y hx hy,
    specNeighborCount_eq_zCount G.grid p a b hbr]
  rfl

/-- Away from a pattern's support, its neighbor count vanishes. -/
theorem zCount_eq_zero (p : Int → Int → Bool) (lo1 hi1 lo2 hi2 : Int)
    (hs : ∀ u v, p u v = true → lo1 ≤ u ∧ u < hi1 ∧ lo2 ≤ v ∧ v < hi2)
    {u v : Int} (h : u < lo1 - 1 ∨ hi1 + 1 ≤ u ∨ v < lo2 - 1 ∨ hi2 + 1 ≤ v) :
    zCount p u v = 0 := by
  have hf : ∀ u' v' : Int, u - 1 ≤ u' → u' ≤ u + 1 → v - 1 ≤ v' → v' ≤ v + 1 →
      p u' v' = false := by
    intro u' v' h1 h2 h3 h4
    cases hpv : p u' v'
    · rfl
    · have := hs _ _ hpv
      omega
  unfold zCount
  rw [hf (u - 1) (v - 1) (by omega) (by omega) (by omega) (by omega),
      hf u (v - 1) (by omega) (by omega) (by omega) (by omega),
      hf (u + 1) (v - 1) (by omega) (by omega) (by omega) (by omega),
      hf (u - 1) v (by omega) (by omega) (by omega) (by omega),
      hf (u + 1) v (by omega) (by omega) (by omega) (by omega),
      hf (u - 1) (v + 1) (by omega) (by omega) (by omega) (by omega),
      hf u (v + 1) (by omega) (by omega) (by omega) (by omega),
      hf (u + 1) (v + 1) (by omega) (by omega) (by omega) (by omega)]
  rfl

/-- One generation of a boxed pattern stays inside the box grown by one. -/
theorem zStep_support (p : Int → Int → Bool) (lo1 hi1 lo2 hi2 : Int)
    (hs : ∀ u v, p u v = true → lo1 ≤ u ∧ u < hi1 ∧ lo2 ≤ v ∧ v < hi2)
    {u v : Int} (h : u < lo1 - 1 ∨ hi1 + 1 ≤ u ∨ v < lo2 - 1 ∨ hi2 + 1 ≤ v) :
    zStep p u v = false := by
  unfold zStep
  rw [zCount_eq_zero p lo1 hi1 lo2 hi2 hs h]
  have hp0 : p u v = false := by
    cases hpv : p u v
    · rfl
    · have := hs _ _ hpv
      omega
  rw [hp0]
  rfl

/-- To identify one generation of a boxed pattern with a target pattern it
is enough to compare them inside the grown box. -/
theorem zStep_eq_of_support (p q : Int → Int → Bool) (lo1 hi1 lo2 hi2 : Int)
    (hsp : ∀ u v, p u v = true → lo1 ≤ u ∧ u < hi1 ∧ lo2 ≤ v ∧ v < hi2)
    (hsq : ∀ u v, q u v = true →
      lo1 - 1 ≤ u ∧ u < hi1 + 1 ∧ lo2 - 1 ≤ v ∧ v < hi2 + 1)
    (hin : ∀ u v : Int, lo1 - 1 ≤ u → u < hi1 + 1 → lo2 - 1 ≤ v → v < hi2 + 1 →
      zStep p u v = q u v) :
    ∀ u v : Int, zStep p u v = q u v := by
  intro u v
  by_cases hbox : lo1 - 1 ≤ u ∧ u < hi1 + 1 ∧ lo2 - 1 ≤ v ∧ v < hi2 + 1
  · exact hin u v hbox.1 hbox.2.1 hbox.2.2.1 hbox.2.2.2
  · rw [zStep_support p lo1 hi1 lo2 hi2 hsp (by omega)]
    cases hqv : q u v
    · rfl
    · have := hsq _ _ hqv
      omega

/-! ## Concrete patterns: 2x2 block, single corner cell, glider -/

theorem blockP_support : ∀ u v : Int, blockP u v = true →
    0 ≤ u ∧ u < 2 ∧ 0 ≤ v ∧ v < 2 := by
  intro u v h
  simp only [blockP, List.mem_cons, List.not_mem_nil, or_false,
    decide_eq_true_eq, Prod.mk.injEq] at h
  omega

/-- The block is a fixed point of one Game-of-Life generation. -/
theorem zStep_blockP : ∀ u v : Int, zStep blockP u v = blockP u v := by
  refine zStep_eq_of_support blockP blockP 0 2 0 2 blockP_support ?_ ?_
  · intro u v h
    have := blockP_support u v h
    omega
  · intro u v h1 h2 h3 h4
    interval_cases u <;> interval_cases v <;> decide

theorem singleP_support : ∀ u v : Int, singleP u v = true →
    0 ≤ u ∧ u < 1 ∧ 0 ≤ v ∧ v < 1 := by
  intro u v h
  simp only [singleP, decide_eq_true_eq] at h
  omega

theorem gliderP0_support : ∀ u v : Int, gliderP0 u v = true →
    0 ≤ u ∧ u < 4 ∧ 0 ≤ v ∧ v < 4 := by
  intro u v h
  simp only [gliderP0, List.mem_cons, List.not_mem_nil, or_false,
    decide_eq_true_eq, Prod.mk.injEq] at h
  omega

theorem gliderP1_support : ∀ u v : Int, gliderP1 u v = true →
    0 ≤ u ∧ u < 4 ∧ 0 ≤ v ∧ v < 4 := by
  intro u v h
  simp only [gliderP1, List.mem_cons, List.not_mem_nil, or_false,
    decide_eq_true_eq, Prod.mk.injEq] at h
  omega

theorem gliderP2_support : ∀ u v : Int, gliderP2 u v = true →
    0 ≤ u ∧ u < 4 ∧ 0 ≤ v ∧ v < 4 := by
  intro u v h
  simp only [gliderP2, List.mem_cons, List.not_mem_nil, or_false,
    decide_eq_true_eq, Prod.mk.injEq] at h
  omega

theorem gliderP3_support : ∀ u v : Int, gliderP3 u v = true →
    0 ≤ u ∧ u < 4 ∧ 0 ≤ v ∧ v < 4 := by
  intro u v h
  simp only [gliderP3, List.mem_cons, List.not_mem_nil, or_false,
    decide_eq_true_eq, Prod.mk.injEq] at h
  omega

theorem gliderP4_support : ∀ u v : Int, gliderP4 u v = true →
    0 ≤ u ∧ u < 4 ∧ 0 ≤ v ∧ v < 4 := by
  intro u v h
  simp only [gliderP4, gliderP0, List.mem_cons, List.not_mem_nil, or_false,
    decide_eq_true_eq, Prod.mk.injEq] at h
  omega

theorem zStep_gliderP0 : ∀ u v : Int, zStep gliderP0 u v = gliderP1 u v := by
  refine zStep_eq_of_support gliderP0 gliderP1 0 4 0 4 gliderP0_support ?_ ?_
  · intro u v h
    have := gliderP1_support u v h
    omega
  · intro u v h1 h2 h3 h4
    interval_cases u <;> interval_cases v <;> decide

theorem zStep_gliderP1 : ∀ u v : Int, zStep gliderP1 u v = gliderP2 u v := by
  refine zStep_eq_of_support gliderP1 gliderP2 0 4 0 4 gliderP1_support ?_ ?_
  · intro u v h
    have := gliderP2_support u v h
    omega
  · intro u v h1 h2 h3 h4
    interval_cases u <;> interval_cases v <;> decide

theorem zStep_gliderP2 : ∀ u v : Int, zStep gliderP2 u v = gliderP3 u v := by
  refine zStep_eq_of_support gliderP2 gliderP3 0 4 0 4 gliderP2_support ?_ ?_
  · intro u v h
    have := gliderP3_support u v h
    omega
  · intro u v h1 h2 h3 h4
    interval_cases u <;> interval_cases v <;> decide

theorem zStep_gliderP3 : ∀ u v : Int, zStep gliderP3 u v = gliderP4 u v := by
  refine zStep_eq_of_support gliderP3 gliderP4 0 4 0 4 gliderP3_support ?_ ?_
  · intro u v h
    have := gliderP4_support u v h
    omega
  · intro u v h1 h2 h3 h4
    interval_cases u <;> interval_cases v <;> decide

/-! ## Claims -/

/-- C1: for every grid state with width >= 1 and height >= 1, when the
simulation is not paused, `update` replaces the current grid so that every
in-bounds cell holds the classic Game-of-Life rule applied to the pre-step
state, with every neighbor count computed from the pre-step grid only. -/
theorem C1_update_applies_classic_rule (game : Game) (hwf : game.wf)
    (_hw : 1 ≤ game.grid.width) (_hh : 1 ≤ game.grid.height)
    (hp : game.paused = false) :
    ∃ g', game.update = some g' ∧
      g'.grid.width = game.grid.width ∧ g'.grid.height = game.grid.height ∧
      ∀ x y, x < game.grid.width → y < game.grid.height →
        cellAlive g'.grid x y =
          specClassicRule (cellAlive game.grid x y)
            (specNeighborCount game.grid (x : Int) (y : Int)) := by
  obtain ⟨G', h1, h2, h3, _, _, _, h7⟩ := Game.update_spec game hwf hp
  exact ⟨G', h1, h2, h3, h7⟩

/-- Witness for C1 at the concrete blinker game. -/
theorem C1_update_applies_classic_rule_witness :
    ∃ g', blinkerGame.update = some g' ∧
      g'.grid.width = blinkerGame.grid.width ∧
      g'.grid.height = blinkerGame.grid.height ∧
      ∀ x y, x < blinkerGame.grid.width → y < blinkerGame.grid.height →
        cellAlive g'.grid x y =
          specClassicRule (cellAlive blinkerGame.grid x y)
            (specNeighborCount blinkerGame.grid (x : Int) (y : Int)) :=
  C1_update_applies_classic_rule blinkerGame (by decide) (by decide) (by decide) rfl

/-- C2 counterexample: on the consistent 3x3 grid `aliasGrid`, the call
`get 3 0` has x = 3 >= width = 3 but does not fail: it returns the storage
of cell (0, 1) (flat index 3), and `set 3 0 false` likewise succeeds and
clears cell (0, 1)'s storage. -/
theorem C2_oob_access_counterexample :
    aliasGrid.consistent ∧ aliasGrid.width ≤ 3 ∧
    aliasGrid.get 3 0 = some true ∧
    aliasGrid.get 3 0 = aliasGrid.get 0 1 ∧
    aliasGrid.set 3 0 false = some aliasGridCleared ∧
    cellAlive aliasGrid 0 1 = true ∧
    cellAlive aliasGridCleared 0 1 = false := by
  refine ⟨by decide, by decide, by decide, by decide, by decide, by decide, by decide⟩

/-- C2 amended: on a consistent grid, `get` and `set` fail exactly when the
flattened index `x + y * width` reaches `width * height` (hence always when
y >= height); an x >= width whose flattened index is still in range silently
accesses the storage of the cell `(index mod width, index / width)` instead
of failing. -/
theorem C2_get_set_bounds (g : BoolGrid2D) (hc : g.consistent) (x y : Nat)
    (v : Bool) :
    (g.get x y = none ↔ g.width * g.height ≤ x + y * g.width) ∧
    (g.set x y v = none ↔ g.width * g.height ≤ x + y * g.width) ∧
    (g.height ≤ y → g.get x y = none) ∧
    (0 < g.width → x + y * g.width < g.width * g.height →
      g.get x y = g.get ((x + y * g.width) % g.width) ((x + y * g.width) / g.width)) := by
  refine ⟨?_, ?_, ?_, ?_⟩
  · unfold BoolGrid2D.get BoolGrid2D.get_index
    rw [List.getElem?_eq_none_iff, hc]
  · unfold BoolGrid2D.set BoolGrid2D.get_index
    by_cases h : x + y * g.width < g.array.length
    · rw [if_pos h]
      rw [hc] at h
      constructor
      · intro h'
        simp at h'
      · intro h'
        omega
    · rw [if_neg h]
      rw [hc] at h
      constructor
      · intro _
        omega
      · intro _
        rfl
  · intro hy
    unfold BoolGrid2D.get BoolGrid2D.get_index
    rw [List.getElem?_eq_none_iff, hc]
    have h1 : g.height * g.width ≤ y * g.width := Nat.mul_le_mul_right g.width hy
    have h2 : g.width * g.height = g.height * g.width := Nat.mul_comm _ _
    omega
  · intro hw0 hlt
    unfold BoolGrid2D.get BoolGrid2D.get_index
    congr 1
    exact (Nat.mod_add_div' (x + y * g.width) g.width).symm

/-- Witness for the C2 amended bounds contract at a concrete grid. -/
theorem C2_get_set_bounds_witness :
    (aliasGrid.get 3 0 = none ↔
      aliasGrid.width * aliasGrid.height ≤ 3 + 0 * aliasGrid.width) ∧
    (aliasGrid.set 3 0 false = none ↔
      aliasGrid.width * aliasGrid.height ≤ 3 + 0 * aliasGrid.width) ∧
    (aliasGrid.height ≤ 0 → aliasGrid.get 3 0 = none) ∧
    (0 < aliasGrid.width → 3 + 0 * aliasGrid.width < aliasGrid.width * aliasGrid.height →
      aliasGrid.get 3 0 =
        aliasGrid.get ((3 + 0 * aliasGrid.width) % aliasGrid.width)
          ((3 + 0 * aliasGrid.width) / aliasGrid.width)) :=
  C2_get_set_bounds aliasGrid (by decide) 3 0 false

/-- C3: while the paused flag is true, any number of `update` calls returns
the state completely unchanged: current grid, scratch grid and flag. -/
theorem C3_paused_update_noop (game : Game) (hp : game.paused = true) :
    ∀ n : Nat, game.updateN n = some game := by
  have h1 : game.update = some game := by
    unfold Game.update
    rw [if_pos hp]
  intro n
  induction n with
  | zero => rfl
  | succ n ih =>
    unfold Game.updateN
    rw [h1, Option.some_bind]
    exact ih

/-- Witness for C3 at a concrete paused game, five repeated steps. -/
theorem C3_paused_update_noop_witness : pausedGame.updateN 5 = some pausedGame :=
  C3_paused_update_noop pausedGame rfl 5

/-- C4: on a consistent grid, an in-bounds `set (x, y) v` succeeds, a `get`
at (x, y) right after returns v, and every other in-bounds cell reads the
same value as before (no aliasing between distinct in-bounds cells). -/
theorem C4_set_get_roundtrip (g : BoolGrid2D) (hc : g.consistent) {x y : Nat}
    (v : Bool) (hx : x < g.width) (hy : y < g.height) :
    ∃ g', g.set x y v = some g' ∧ g'.get x y = some v ∧
      ∀ x' y', x' < g.width → y' < g.height → ¬(x' = x ∧ y' = y) →
        g'.get x' y' = g.get x' y' := by
  obtain ⟨g', h1, hw', hh', hlen', hcell', hother'⟩ := BoolGrid2D.set_spec hc v hx hy
  have hc' : g'.consistent := by
    unfold BoolGrid2D.consistent at hc ⊢
    rw [hlen', hw', hh']
    exact hc
  refine ⟨g', h1, ?_, ?_⟩
  · rw [BoolGrid2D.get_eq_cellAlive hc' (by rw [hw']; exact hx)
      (by rw [hh']; exact hy), hcell']
  · intro x' y' hx' hy' hne
    rw [BoolGrid2D.get_eq_cellAlive hc' (by rw [hw']; exact hx')
      (by rw [hh']; exact hy'),
      BoolGrid2D.get_eq_cellAlive hc hx' hy', hother' x' y' hx' hy' hne]

/-- Witness for C4 at a concrete grid and cell. -/
theorem C4_set_get_roundtrip_witness :
    ∃ g', aliasGrid.set 2 2 true = some g' ∧ g'.get 2 2 = some true ∧
      ∀ x' y', x' < aliasGrid.width → y' < aliasGrid.height → ¬(x' = 2 ∧ y' = 2) →
        g'.get x' y' = aliasGrid.get x' y' :=
  C4_set_get_roundtrip aliasGrid (by decide) true (by decide) (by decide)

/-- C5 counterexample: the screen position (400, 0) on the 40x40 reference
game maps to cell (40, 0), whose x-coordinate equals the width — out of
bounds — and `process_event` passes it to `toggle_cell` anyway, which
silently toggles the storage of cell (0, 1). -/
theorem C5_mouse_unclamped_counterexample :
    mouseGame.get_cell_below_position (400, 0) = (40, 0) ∧
    mouseGame.grid.width ≤ 40 ∧
    mouseGame.process_event (.mouseButtonPressed (400, 0)) =
      mouseGame.toggle_cell (40, 0) ∧
    mouseGame.process_event (.mouseButtonPressed (400, 0)) = some mouseGameToggled ∧
    cellAlive mouseGame.grid 0 1 = false ∧
    cellAlive mouseGameToggled.grid 0 1 = true := by
  have hmap : mouseGame.get_cell_below_position (400, 0) = (40, 0) := by
    show ((⌊(400 : ℚ) / 10⌋).toNat, (⌊(0 : ℚ) / 10⌋).toNat) = (40, 0)
    norm_num
    rfl
  have hget : mouseGame.grid.get 40 0 = some false := by
    show (List.replicate (40 * 40) false)[40 + 0 * 40]? = some false
    rw [List.getElem?_replicate]
    norm_num
  have harr : mouseGame.grid.array.set (mouseGame.grid.get_index 40 0) true =
      (List.replicate 1600 false).set 40 true := by
    show (List.replicate (40 * 40) false).set (40 + 0 * 40) true =
      (List.replicate 1600 false).set 40 true
    norm_num
  have hb : mouseGame.grid.get_index 40 0 < mouseGame.grid.array.length := by
    show 40 + 0 * 40 < (List.replicate (40 * 40) false).length
    rw [List.length_replicate]
    norm_num
  have hset : mouseGame.grid.set 40 0 true = some mouseGameToggled.grid := by
    unfold BoolGrid2D.set
    rw [if_pos hb, harr]
    rfl
  have htoggle : mouseGame.toggle_cell (40, 0) = some mouseGameToggled := by
    show (mouseGame.grid.get 40 0).bind _ = _
    rw [hget, Option.some_bind]
    show (mouseGame.grid.set 40 0 true).map _ = _
    rw [hset, Option.map_some']
    rfl
  have hproc : mouseGame.process_event (.mouseButtonPressed (400, 0)) =
      mouseGame.toggle_cell (40, 0) := by
    show mouseGame.toggle_cell (mouseGame.get_cell_below_position (400, 0)) =
      mouseGame.toggle_cell (40, 0)
    rw [hmap]
  have hfalse : cellAlive mouseGame.grid 0 1 = false := by
    show ((List.replicate (40 * 40) false)[0 + 1 * 40]?).getD false = false
    rw [List.getElem?_replicate]
    norm_num
  have htrue : cellAlive mouseGameToggled.grid 0 1 = true := by
    show (((List.replicate 1600 false).set 40 true)[0 + 1 * 40]?).getD false = true
    rw [List.getElem?_set, List.length_replicate]
    norm_num
  exact ⟨hmap, le_refl 40, hproc, hproc.trans htoggle, hfalse, htrue⟩

/-- C5 amended: the mouse-to-cell mapping divides each screen coordinate by
the per-cell size and floors it (negative results saturating to 0), but no
clamping or rejection is performed: the computed cell, in bounds or not, is
passed directly to `toggle_cell`. -/
theorem C5_mouse_mapping_unclamped (game : Game) (q : ℚ × ℚ) :
    game.process_event (.mouseButtonPressed q) =
      game.toggle_cell
        ((⌊q.1 / game.cell_size.1⌋).toNat, (⌊q.2 / game.cell_size.2⌋).toNat) :=
  rfl

/-- C6: on the unpaused 3x3 vertical blinker, one step gives exactly the
horizontal blinker (0,1), (1,1), (2,1), and a second step restores exactly
the vertical blinker (1,0), (1,1), (1,2). -/
theorem C6_blinker_period_two :
    blinkerGame.update = some blinkerGame1 ∧
    blinkerGame1.update = some blinkerGame2 ∧
    (∀ x, x < 3 → ∀ y, y < 3 → (cellAlive blinkerGame.grid x y = true ↔
      (x = 1 ∧ y = 0) ∨ (x = 1 ∧ y = 1) ∨ (x = 1 ∧ y = 2))) ∧
    (∀ x, x < 3 → ∀ y, y < 3 → (cellAlive blinkerGame1.grid x y = true ↔
      (x = 0 ∧ y = 1) ∨ (x = 1 ∧ y = 1) ∨ (x = 2 ∧ y = 1))) ∧
    (∀ x, x < 3 → ∀ y, y < 3 →
      cellAlive blinkerGame2.grid x y = cellAlive blinkerGame.grid x y) := by
  refine ⟨by decide, by decide, by decide, by decide, by decide⟩

/-- C7: a 2x2 block of alive cells fully inside the bounds of a well-formed
unpaused grid, with all other cells dead, is preserved exactly by any number
of steps. -/
theorem C7_block_still_life (n : Nat) (game : Game) (a b : Nat) (hwf : game.wf)
    (hp : game.paused = false)
    (ha : a + 2 ≤ game.grid.width) (hb : b + 2 ≤ game.grid.height)
    (hcell : ∀ x, x < game.grid.width → ∀ y, y < game.grid.height →
      cellAlive game.grid x y = blockP ((x : Int) - a) ((y : Int) - b)) :
    ∃ g', game.updateN n = some g' ∧
      ∀ x y, x < game.grid.width → y < game.grid.height →
        cellAlive g'.grid x y = blockP ((x : Int) - a) ((y : Int) - b) := by
  revert game
  induction n with
  | zero =>
    intro game hwf hp ha hb hcell
    exact ⟨game, rfl, fun x y hx hy => hcell x hx y hy⟩
  | succ n ih =>
    intro game hwf hp ha hb hcell
    obtain ⟨G', h1, h2, h3, h4, h5, h6, h7⟩ :=
      Game.step_pattern game blockP a b 0 2 0 2 hwf hp blockP_support
        (by omega) (by omega) (by omega) (by omega)
        (fun x y hx hy => hcell x hx y hy)
    have ha' : a + 2 ≤ G'.grid.width := by rw [h2]; exact ha
    have hb' : b + 2 ≤ G'.grid.height := by rw [h3]; exact hb
    have hcell' : ∀ x, x < G'.grid.width → ∀ y, y < G'.grid.height →
        cellAlive G'.grid x y = blockP ((x : Int) - a) ((y : Int) - b) := by
      intro x hx y hy
      rw [h7 x y (by rw [← h2]; exact hx) (by rw [← h3]; exact hy), zStep_blockP]
    obtain ⟨g'', hup, hcells''⟩ := ih G' h6 h4 ha' hb' hcell'
    refine ⟨g'', ?_, ?_⟩
    · unfold Game.updateN
      rw [h1, Option.some_bind]
      exact hup
    · intro x y hx hy
      exact hcells'' x y (by rw [h2]; exact hx) (by rw [h3]; exact hy)

/-- Witness for C7: the concrete 4x4 block game, three steps. -/
theorem C7_block_still_life_witness :
    ∃ g', blockGame.updateN 3 = some g' ∧
      ∀ x y, x < blockGame.grid.width → y < blockGame.grid.height →
        cellAlive g'.grid x y = blockP ((x : Int) - 1) ((y : Int) - 1) :=
  C7_block_still_life 3 blockGame 1 1 (by decide) rfl (by decide) (by decide)
    (by decide)

/-- C8: a glider placed at offset (a, b), with a 4x4 bounding window inside
the bounds of a well-formed unpaused grid and all other cells dead, is after
exactly 4 steps the same pattern translated by (+1, +1). -/
theorem C8_glider_translates (game : Game) (a b : Nat) (hwf : game.wf)
    (hp : game.paused = false)
    (ha : a + 4 ≤ game.grid.width) (hb : b + 4 ≤ game.grid.height)
    (hcell : ∀ x, x < game.grid.width → ∀ y, y < game.grid.height →
      cellAlive game.grid x y = gliderP0 ((x : Int) - a) ((y : Int) - b)) :
    ∃ g', game.updateN 4 = some g' ∧
      ∀ x y, x < game.grid.width → y < game.grid.height →
        cellAlive g'.grid x y =
          gliderP0 ((x : Int) - (a + 1 : Nat)) ((y : Int) - (b + 1 : Nat)) := by
  obtain ⟨G1, h11, h12, h13, h14, h15, h16, h17⟩ :=
    Game.step_pattern game gliderP0 a b 0 4 0 4 hwf hp gliderP0_support
      (by omega) (by omega) (by omega) (by omega)
      (fun x y hx hy => hcell x hx y hy)
  have hcell1 : ∀ x y, x < G1.grid.width → y < G1.grid.height →
      cellAlive G1.grid x y = gliderP1 ((x : Int) - a) ((y : Int) - b) := by
    intro x y hx hy
    rw [h17 x y (by rw [← h12]; exact hx) (by rw [← h13]; exact hy), zStep_gliderP0]
  obtain ⟨G2, h21, h22, h23, h24, h25, h26, h27⟩ :=
    Game.step_pattern G1 gliderP1 a b 0 4 0 4 h16 h14 gliderP1_support
      (by omega) (by rw [h12]; omega) (by omega) (by rw [h13]; omega) hcell1
  have hcell2 : ∀ x y, x < G2.grid.width → y < G2.grid.height →
      cellAlive G2.grid x y = gliderP2 ((x : Int) - a) ((y : Int) - b) := by
    intro x y hx hy
    rw [h27 x y (by rw [← h22]; exact hx) (by rw [← h23]; exact hy), zStep_gliderP1]
  obtain ⟨G3, h31, h32, h33, h34, h35, h36, h37⟩ :=
    Game.step_pattern G2 gliderP2 a b 0 4 0 4 h26 h24 gliderP2_support
      (by omega) (by rw [h22, h12]; omega) (by omega) (by rw [h23, h13]; omega) hcell2
  have hcell3 : ∀ x y, x < G3.grid.width → y < G3.grid.height →
      cellAlive G3.grid x y = gliderP3 ((x : Int) - a) ((y : Int) - b) := by
    intro x y hx hy
    rw [h37 x y (by rw [← h32]; exact hx) (by rw [← h33]; exact hy), zStep_gliderP2]
  obtain ⟨G4, h41, h42, h43, h44, h45, h46, h47⟩ :=
    Game.step_pattern G3 gliderP3 a b 0 4 0 4 h36 h34 gliderP3_support
      (by omega) (by rw [h32, h22, h12]; omega) (by omega)
      (by rw [h33, h23, h13]; omega) hcell3
  have hcell4 : ∀ x y, x < G4.grid.width → y < G4.grid.height →
      cellAlive G4.grid x y = gliderP4 ((x : Int) - a) ((y : Int) - b) := by
    intro x y hx hy
    rw [h47 x y (by rw [← h42]; exact hx) (by rw [← h43]; exact hy), zStep_gliderP3]
  refine ⟨G4, ?_, ?_⟩
  · have e4 : game.updateN 4 = game.update.bind fun g => g.updateN 3 := rfl
    rw [e4, h11, Option.some_bind]
    have e3 : G1.updateN 3 = G1.update.bind fun g => g.updateN 2 := rfl
    rw [e3, h21, Option.some_bind]
    have e2 : G2.updateN 2 = G2.update.bind fun g => g.updateN 1 := rfl
    rw [e2, h31, Option.some_bind]
    have e1 : G3.updateN 1 = G3.update.bind fun g => g.updateN 0 := rfl
    rw [e1, h41, Option.some_bind]
    rfl
  · intro x y hx hy
    have hx4 : x < G4.grid.width := by rw [h42, h32, h22, h12]; exact hx
    have hy4 : y < G4.grid.height := by rw [h43, h33, h23, h13]; exact hy
    rw [hcell4 x y hx4 hy4]
    unfold gliderP4
    have e1 : (x : Int) - a - 1 = (x : Int) - (a + 1 : Nat) := by push_cast; ring
    have e2 : (y : Int) - b - 1 = (y : Int) - (b + 1 : Nat) := by push_cast; ring
    rw [e1, e2]

/-- Witness for C8: the concrete 6x6 glider game. -/
theorem C8_glider_translates_witness :
    ∃ g', gliderGame.updateN 4 = some g' ∧
      ∀ x y, x < gliderGame.grid.width → y < gliderGame.grid.height →
        cellAlive g'.grid x y =
          gliderP0 ((x : Int) - (1 + 1 : Nat)) ((y : Int) - (1 + 1 : Nat)) :=
  C8_glider_translates gliderGame 1 1 (by decide) rfl (by decide) (by decide)
    (by decide)

/-- C9: on an N x N well-formed unpaused grid (N >= 2) whose only alive cell
is the corner (0,0), the neighbor count of (0,0) succeeds counting in-bounds
neighbors only — here 0 — and one step kills the corner cell. -/
theorem C9_corner_cell_dies (game : Game) (N : Nat) (hN : 2 ≤ N)
    (hw : game.grid.width = N) (hh : game.grid.height = N)
    (hwf : game.wf) (hp : game.paused = false)
    (hcell : ∀ x, x < N → ∀ y, y < N →
      cellAlive game.grid x y = decide (x = 0 ∧ y = 0)) :
    game.get_neighbors_count 0 0 = some 0 ∧
    ∃ g', game.update = some g' ∧ cellAlive g'.grid 0 0 = false := by
  have hx0 : (0 : Nat) < game.grid.width := by omega
  have hy0 : (0 : Nat) < game.grid.height := by omega
  have hcell' : ∀ x y, x < game.grid.width → y < game.grid.height →
      cellAlive game.grid x y = singleP ((x : Int) - 0) ((y : Int) - 0) := by
    intro x y hx hy
    rw [hcell x (by omega) y (by omega)]
    unfold singleP
    rw [decide_eq_decide]
    omega
  have hbr := aliveZ_eq_pattern game.grid singleP 0 0 0 1 0 1 singleP_support
    (by omega) (by omega) (by omega) (by omega) hcell'
  have hzero : specNeighborCount game.grid ((0 : Nat) : Int) ((0 : Nat) : Int) = 0 := by
    rw [specNeighborCount_eq_zCount game.grid singleP 0 0 hbr]
    decide
  constructor
  · rw [Game.get_neighbors_count_spec game hwf.1 hx0 hy0, hzero]
    rfl
  · obtain ⟨G', h1, _, _, _, _, _, h7⟩ := Game.update_spec game hwf hp
    refine ⟨G', h1, ?_⟩
    rw [h7 0 0 hx0 hy0, hzero, hcell 0 (by omega) 0 (by omega)]
    decide

/-- Witness for C9: the concrete 2x2 corner game. -/
theorem C9_corner_cell_dies_witness :
    cornerGame.get_neighbors_count 0 0 = some 0 ∧
    ∃ g', cornerGame.update = some g' ∧ cellAlive g'.grid 0 0 = false :=
  C9_corner_cell_dies cornerGame 2 (by decide) rfl rfl (by decide) rfl (by decide)

/-- C10: on any state whose two grids have consistent dimensions, `update`
never hits the out-of-range branch of a grid access: it is total (returns a
state rather than the embedded failure). -/
theorem C10_update_total (game : Game) (hwf : game.wf) :
    game.update.isSome = true := by
  cases hp : game.paused
  · obtain ⟨G', h1, _⟩ := Game.update_spec game hwf hp
    rw [h1]
    rfl
  · unfold Game.update
    rw [if_pos hp]
    rfl

/-- Witness for C10 at the concrete blinker game. -/
theorem C10_update_total_witness : blinkerGame.update.isSome = true :=
  C10_update_total blinkerGame (by decide)
